import Mathlib

/-!
Verification of the yearly financial projection engine
(`src/calculator.py`: `calculate_yearly_projection`, `calculate_scenarios`)
and its data model (`src/models.py`: `FinanceParams`, `YearlyData`).

Money amounts are modelled as exact rationals; the Python `round(x, 2)`
emission-time rounding is modelled by `round2` below.  The walk-forward
mutation of the Python loop body is modelled as an explicit state-transition
function `projStep` on `EngineState`, iterated by `projLoop`.  Each local
variable of the Python loop body becomes a named function of the parameters,
the iteration index `i` and the carried state; the dataflow of the loop body
(every local is assigned before it is read) is reproduced exactly.
-/

attribute [local semireducible] Rat.add Rat.sub Rat.mul Rat.inv Rat.ofScientific

/-- The parameter record (`FinanceParams` dataclass in `src/models.py`). -/
structure FinanceParams where
  start_year : Int
  start_work_year : Int
  current_age : Int
  retirement_age : Int
  official_retirement_age : Int
  initial_monthly_salary : ℚ
  local_average_salary : ℚ
  salary_growth_rate : ℚ
  pension_replacement_ratio : ℚ
  contribution_ratio : ℚ
  living_expense_ratio : ℚ
  deposit_rate : ℚ
  inflation_rate : ℚ
  initial_savings : ℚ
  initial_housing_fund : ℚ
  housing_fund_rate : ℚ
  initial_personal_pension : ℚ
deriving DecidableEq

/-- The yearly record (`YearlyData` dataclass in `src/models.py`). -/
structure YearlyData where
  year : Int
  age : Int
  average_salary : ℚ
  monthly_salary : ℚ
  contribution_base : ℚ
  pension_contribution : ℚ
  housing_fund_account : ℚ
  pension_years : Int
  medical_years : Int
  can_receive_pension : Bool
  annual_pension_received : ℚ
  living_expense : ℚ
  savings : ℚ
  total_assets : ℚ
  scenario_name : String := ""
  is_retirement_year : Bool := false
  is_pension_start_year : Bool := false
deriving DecidableEq

/-- Python `round(x, 2)` on exact rationals: round to two decimal places.
Written with `Rat.floor` so that it evaluates inside the kernel; it agrees
with Mathlib's `round` applied to `100 * x` (see `round2_eq`). -/
def round2 (x : ℚ) : ℚ := (((100 * x + 1 / 2).floor : ℤ) : ℚ) / 100

/-- The state the Python loop carries across iterations. -/
structure EngineState where
  monthly_salary : ℚ
  average_salary : ℚ
  savings : ℚ
  housing_fund : ℚ
  pension_years : Int
  medical_years : Int
deriving DecidableEq

/-- The state before the first iteration (lines 23-32 of `calculator.py`). -/
def initState (p : FinanceParams) : EngineState :=
  { monthly_salary := p.initial_monthly_salary
    average_salary := p.local_average_salary
    savings := p.initial_savings
    housing_fund := p.initial_housing_fund
    pension_years := max 0 (p.start_year - p.start_work_year)
    medical_years := max 0 (p.start_year - p.start_work_year) }

/-- `year = params.start_year + i`. -/
def yearOf (p : FinanceParams) (i : Nat) : Int := p.start_year + (i : Int)

/-- `age = params.current_age + i`. -/
def ageOf (p : FinanceParams) (i : Nat) : Int := p.current_age + (i : Int)

/-- `is_retired = age >= params.retirement_age`. -/
def isRetired (p : FinanceParams) (i : Nat) : Bool :=
  decide (p.retirement_age ≤ ageOf p i)

/-- `monthly_salary` after the growth assignment of iteration `i`
(grows before retirement, for `i > 0`). -/
def nextMonthlySalary (p : FinanceParams) (i : Nat) (st : EngineState) : ℚ :=
  if isRetired p i = false ∧ 0 < i then
    st.monthly_salary * (1 + p.salary_growth_rate / 100)
  else st.monthly_salary

/-- `average_salary` after the growth assignment of iteration `i`
(grows every year for `i > 0`). -/
def nextAverageSalary (p : FinanceParams) (i : Nat) (st : EngineState) : ℚ :=
  if 0 < i then st.average_salary * (1 + p.salary_growth_rate / 100)
  else st.average_salary

/-- `need_continue_pay = is_retired and (need_pay_pension or need_pay_medical)`. -/
def needContinuePay (p : FinanceParams) (i : Nat) (st : EngineState) : Bool :=
  isRetired p i && (decide (st.pension_years < 20) || decide (st.medical_years < 25))

/-- `contribution_base`: salary-based while working, reference-wage-based while
retired-but-must-continue, otherwise 0. -/
def contributionBase (p : FinanceParams) (i : Nat) (st : EngineState) : ℚ :=
  if isRetired p i = false then nextMonthlySalary p i st * p.contribution_ratio
  else if needContinuePay p i st = true then
    nextAverageSalary p i st * p.contribution_ratio
  else 0

/-- `pension_contribution = (contribution_base * 0.3 if paying else 0) * 12`. -/
def pensionContribution (p : FinanceParams) (i : Nat) (st : EngineState) : ℚ :=
  (if isRetired p i = false ∨ needContinuePay p i st = true then
    contributionBase p i st * 0.3
  else 0) * 12

/-- `pension_years` after the year-counter update of iteration `i`. -/
def nextPensionYears (p : FinanceParams) (i : Nat) (st : EngineState) : Int :=
  if (isRetired p i = false ∨ needContinuePay p i st = true) ∧ st.pension_years < 20
  then st.pension_years + 1
  else st.pension_years

/-- `medical_years` after the year-counter update of iteration `i`. -/
def nextMedicalYears (p : FinanceParams) (i : Nat) (st : EngineState) : Int :=
  if (isRetired p i = false ∨ needContinuePay p i st = true) ∧ st.medical_years < 25
  then st.medical_years + 1
  else st.medical_years

/-- `housing_fund` after the growth assignment (before the age-60 transfer):
grows only while `age < 60` and `i > 0`. -/
def housingFundGrown (p : FinanceParams) (i : Nat) (st : EngineState) : ℚ :=
  if ageOf p i < 60 ∧ 0 < i then
    st.housing_fund * (1 + p.housing_fund_rate / 100)
      + nextMonthlySalary p i st * 0.07 * 12
  else st.housing_fund

/-- `savings` after the age-60 housing-fund transfer (before compounding). -/
def savingsAfterFund (p : FinanceParams) (i : Nat) (st : EngineState) : ℚ :=
  if ageOf p i = 60 ∧ 0 < housingFundGrown p i st then
    st.savings + housingFundGrown p i st
  else st.savings

/-- `housing_fund` after the age-60 transfer: zeroed at the transfer. -/
def nextHousingFund (p : FinanceParams) (i : Nat) (st : EngineState) : ℚ :=
  if ageOf p i = 60 ∧ 0 < housingFundGrown p i st then 0
  else housingFundGrown p i st

/-- `monthly_living_expense`: the base expense, inflated for `i > 0`. -/
def monthlyLivingExpense (p : FinanceParams) (i : Nat) (st : EngineState) : ℚ :=
  if 0 < i then
    (nextAverageSalary p i st * p.living_expense_ratio)
      * (1 + p.inflation_rate / 100) ^ i
  else nextAverageSalary p i st * p.living_expense_ratio

/-- `annual_living_expense = monthly_living_expense * 12`. -/
def annualLivingExpense (p : FinanceParams) (i : Nat) (st : EngineState) : ℚ :=
  monthlyLivingExpense p i st * 12

/-- `annual_income = monthly_salary * 12 if not is_retired else 0`. -/
def annualIncome (p : FinanceParams) (i : Nat) (st : EngineState) : ℚ :=
  if isRetired p i = false then nextMonthlySalary p i st * 12 else 0

/-- `can_receive_pension = age >= 60 and pension_years >= 20`
(read after the year-counter update). -/
def canReceivePension (p : FinanceParams) (i : Nat) (st : EngineState) : Bool :=
  decide (60 ≤ ageOf p i) && decide (20 ≤ nextPensionYears p i st)

/-- `annual_pension_benefit = (average_salary * replacement if eligible else 0) * 12`. -/
def annualPensionBenefit (p : FinanceParams) (i : Nat) (st : EngineState) : ℚ :=
  (if canReceivePension p i st = true then
    nextAverageSalary p i st * p.pension_replacement_ratio
  else 0) * 12

/-- `annual_savings = annual_income + annual_pension_benefit
- pension_contribution - annual_living_expense`. -/
def annualNetFlow (p : FinanceParams) (i : Nat) (st : EngineState) : ℚ :=
  annualIncome p i st + annualPensionBenefit p i st
    - pensionContribution p i st - annualLivingExpense p i st

/-- `savings = savings * (1 + deposit_rate/100) + annual_savings`
(interest applied to the post-transfer balance, then the net flow added). -/
def nextSavings (p : FinanceParams) (i : Nat) (st : EngineState) : ℚ :=
  savingsAfterFund p i st * (1 + p.deposit_rate / 100) + annualNetFlow p i st

/-- One iteration of the projection loop (lines 38-122 of `calculator.py`):
given the parameters, the iteration index `i` and the carried state, produce
the updated state and the emitted `YearlyData` record (fields rounded to two
decimals at emission time only). -/
def projStep (p : FinanceParams) (i : Nat) (st : EngineState) :
    EngineState × YearlyData :=
  ({ monthly_salary := nextMonthlySalary p i st
     average_salary := nextAverageSalary p i st
     savings := nextSavings p i st
     housing_fund := nextHousingFund p i st
     pension_years := nextPensionYears p i st
     medical_years := nextMedicalYears p i st },
   { year := yearOf p i
     age := ageOf p i
     average_salary := round2 (nextAverageSalary p i st)
     monthly_salary :=
       round2 (if isRetired p i = false then nextMonthlySalary p i st else 0)
     contribution_base := round2 (contributionBase p i st)
     pension_contribution := round2 (pensionContribution p i st)
     housing_fund_account := round2 (nextHousingFund p i st)
     pension_years := nextPensionYears p i st
     medical_years := nextMedicalYears p i st
     can_receive_pension := canReceivePension p i st
     annual_pension_received := round2 (annualPensionBenefit p i st)
     living_expense := round2 (annualLivingExpense p i st)
     savings := round2 (nextSavings p i st)
     total_assets := round2 (nextSavings p i st + nextHousingFund p i st)
     scenario_name := ""
     is_retirement_year := decide (ageOf p i = p.retirement_age)
     is_pension_start_year := decide (ageOf p i = 60) && canReceivePension p i st })

/-- Iterate `projStep` for `fuel` iterations starting at index `i`,
collecting the emitted records. -/
def projLoop (p : FinanceParams) (st : EngineState) (i : Nat) (fuel : Nat) :
    List YearlyData :=
  match fuel with
  | 0 => []
  | fuel' + 1 =>
    let r := projStep p i st
    r.2 :: projLoop p r.1 (i + 1) fuel'

/-- `calculate_yearly_projection` from `src/calculator.py`: the loop body runs
for `i in range(max_projection_years + 1)`. -/
def calculate_yearly_projection (p : FinanceParams)
    (max_projection_years : Nat := 60) : List YearlyData :=
  projLoop p (initState p) 0 (max_projection_years + 1)

/-- `calculate_scenarios` from `src/calculator.py`: run the projection with
the default horizon for each named parameter record, preserving entry order. -/
def calculate_scenarios (scenarios : List (String × FinanceParams)) :
    List (String × List YearlyData) :=
  scenarios.map (fun nv => (nv.1, calculate_yearly_projection nv.2 60))

/-- The engine-internal state entering iteration `i`. -/
def stateAt (p : FinanceParams) : Nat → EngineState
  | 0 => initState p
  | i + 1 => (projStep p i (stateAt p i)).1

/-- The record emitted by iteration `i`. -/
def recordAt (p : FinanceParams) (i : Nat) : YearlyData :=
  (projStep p i (stateAt p i)).2

/-! ### Concrete parameter records used in witnesses and counterexamples -/

/-- The literal parameter set of the end-to-end scenario in the spec. -/
def endToEndParams : FinanceParams :=
  { start_year := 2025, start_work_year := 2015, current_age := 34,
    retirement_age := 45, official_retirement_age := 60,
    initial_monthly_salary := 10000, local_average_salary := 12307,
    salary_growth_rate := 4.0, pension_replacement_ratio := 0.4,
    contribution_ratio := 0.6, living_expense_ratio := 0.5,
    deposit_rate := 2.0, inflation_rate := 0.0,
    initial_savings := 1000000, initial_housing_fund := 150000,
    housing_fund_rate := 1.5, initial_personal_pension := 0 }

/-- A parameter set whose starting age 59 is already past its retirement age 50. -/
def earlyRetireParams : FinanceParams :=
  { start_year := 2025, start_work_year := 2020, current_age := 59,
    retirement_age := 50, official_retirement_age := 60,
    initial_monthly_salary := 5000, local_average_salary := 6000,
    salary_growth_rate := 3, pension_replacement_ratio := 0.4,
    contribution_ratio := 1, living_expense_ratio := 0.5,
    deposit_rate := 2, inflation_rate := 1,
    initial_savings := 10000, initial_housing_fund := 1000,
    housing_fund_rate := 1.5, initial_personal_pension := 0 }

/-- The end-to-end parameter set with contributions started in 1990, so that
35 contribution years are already accrued at the start year. -/
def highAccrualParams : FinanceParams :=
  { endToEndParams with start_work_year := 1990 }

/-- The end-to-end parameter set started at age 61. -/
def elderParams : FinanceParams :=
  { endToEndParams with current_age := 61 }

/-- A parameter set with positive growth (100%) and a tiny positive starting
reference wage (0.001): the first two emitted `average_salary` values both
round to 0.00. -/
def tinyWageParams : FinanceParams :=
  { start_year := 2025, start_work_year := 2025, current_age := 0,
    retirement_age := 1000, official_retirement_age := 60,
    initial_monthly_salary := 0, local_average_salary := 0.001,
    salary_growth_rate := 100, pension_replacement_ratio := 0,
    contribution_ratio := 0, living_expense_ratio := 0,
    deposit_rate := 0, inflation_rate := 0,
    initial_savings := 0, initial_housing_fund := 0,
    housing_fund_rate := 0, initial_personal_pension := 0 }

/-- A two-entry scenario mapping used as the C7 witness. -/
def scenarioPair : List (String × FinanceParams) :=
  [("A", endToEndParams), ("B", elderParams)]

/-- A parameter set whose second simulated year is age 60 with a positive
housing fund and all flows zero. -/
def liquidationParams : FinanceParams :=
  { start_year := 2025, start_work_year := 2025, current_age := 59,
    retirement_age := 100, official_retirement_age := 60,
    initial_monthly_salary := 0, local_average_salary := 0,
    salary_growth_rate := 0, pension_replacement_ratio := 0,
    contribution_ratio := 0, living_expense_ratio := 0,
    deposit_rate := 0, inflation_rate := 0,
    initial_savings := 0, initial_housing_fund := 100,
    housing_fund_rate := 0, initial_personal_pension := 0 }

/-! ### Rounding lemmas -/

theorem round2_def' (x : ℚ) : round2 x = ((⌊100 * x + 1 / 2⌋ : ℤ) : ℚ) / 100 :=
  rfl

theorem round2_eq (x : ℚ) : round2 x = ((round (100 * x) : ℤ) : ℚ) / 100 := by
  rw [round2_def', round_eq]

theorem round2_mono {x y : ℚ} (h : x ≤ y) : round2 x ≤ round2 y := by
  rw [round2_def', round2_def']
  have hf : (⌊(100 * x + 1 / 2 : ℚ)⌋ : ℤ) ≤ ⌊(100 * y + 1 / 2 : ℚ)⌋ :=
    Int.floor_le_floor (by linarith)
  have : ((⌊(100 * x + 1 / 2 : ℚ)⌋ : ℤ) : ℚ) ≤ ((⌊(100 * y + 1 / 2 : ℚ)⌋ : ℤ) : ℚ) :=
    Int.cast_le.mpr hf
  linarith

theorem round2_zero : round2 0 = 0 := by decide

theorem round2_nonpos {x : ℚ} (h : x ≤ 0) : round2 x ≤ 0 := by
  have := round2_mono h
  rwa [round2_zero] at this

theorem pos_of_round2_pos {x : ℚ} (h : 0 < round2 x) : 0 < x := by
  by_contra hx
  push_neg at hx
  exact absurd h (not_lt.mpr (round2_nonpos hx))

/-- Rounding each addend separately can differ from rounding the sum by at
most one cent. -/
theorem abs_round2_add_sub_le (s h : ℚ) :
    |round2 (s + h) - (round2 s + round2 h)| ≤ 1 / 100 := by
  have hA : |100 * (s + h) - (round (100 * (s + h)) : ℤ)| ≤ 1 / 2 :=
    abs_sub_round (100 * (s + h))
  have hB : |100 * s - (round (100 * s) : ℤ)| ≤ 1 / 2 := abs_sub_round (100 * s)
  have hC : |100 * h - (round (100 * h) : ℤ)| ≤ 1 / 2 := abs_sub_round (100 * h)
  set A : ℤ := round (100 * (s + h)) with hAdef
  set B : ℤ := round (100 * s) with hBdef
  set C : ℤ := round (100 * h) with hCdef
  have hq : |((A - B - C : ℤ) : ℚ)| ≤ 3 / 2 := by
    push_cast
    have e : (A : ℚ) - B - C =
        -(100 * (s + h) - A) + (100 * s - B) + (100 * h - C) := by ring
    rw [e]
    calc |(-(100 * (s + h) - A) + (100 * s - B) + (100 * h - C) : ℚ)|
        ≤ |(-(100 * (s + h) - A) : ℚ)| + |(100 * s - B : ℚ)| + |(100 * h - C : ℚ)| :=
          abs_add_three _ _ _
      _ ≤ 1 / 2 + 1 / 2 + 1 / 2 := by
          rw [abs_neg]
          gcongr
      _ = 3 / 2 := by norm_num
  have hz : |A - B - C| ≤ 1 := by
    have h2 : |((A - B - C : ℤ) : ℚ)| < ((2 : ℤ) : ℚ) := by
      refine lt_of_le_of_lt hq ?_
      norm_num
    rw [← Int.cast_abs] at h2
    have := Int.cast_lt.mp h2
    omega
  rw [round2_eq, round2_eq, round2_eq, ← hAdef, ← hBdef, ← hCdef]
  have e2 : ((A : ℚ)) / 100 - ((B : ℚ) / 100 + (C : ℚ) / 100) =
      ((A - B - C : ℤ) : ℚ) / 100 := by push_cast; ring
  rw [e2, abs_div]
  have h100 : |(100 : ℚ)| = 100 := by norm_num
  rw [h100]
  have : |((A - B - C : ℤ) : ℚ)| ≤ 1 := by
    rw [← Int.cast_abs]
    exact_mod_cast hz
  linarith

/-! ### Structural lemmas about the loop -/

theorem projLoop_length (p : FinanceParams) :
    ∀ (fuel i : Nat) (st : EngineState), (projLoop p st i fuel).length = fuel := by
  intro fuel
  induction fuel with
  | zero => intro i st; rfl
  | succ n ih =>
    intro i st
    simp only [projLoop, List.length_cons, ih]

theorem projLoop_forall {p : FinanceParams} {P : YearlyData → Prop}
    (hP : ∀ (j : Nat) (st : EngineState), P (projStep p j st).2) :
    ∀ (fuel i : Nat) (st : EngineState), ∀ r ∈ projLoop p st i fuel, P r := by
  intro fuel
  induction fuel with
  | zero => intro i st r hr; simp [projLoop] at hr
  | succ n ih =>
    intro i st r hr
    rw [projLoop] at hr
    rcases List.mem_cons.mp hr with h | h
    · rw [h]; exact hP i st
    · exact ih (i + 1) (projStep p i st).1 r h

theorem proj_forall {p : FinanceParams} {P : YearlyData → Prop}
    (hP : ∀ (j : Nat) (st : EngineState), P (projStep p j st).2) (n : Nat) :
    ∀ r ∈ calculate_yearly_projection p n, P r :=
  projLoop_forall hP (n + 1) 0 (initState p)

theorem projLoop_get?_stateAt (p : FinanceParams) :
    ∀ (fuel k i : Nat), k < fuel →
      (projLoop p (stateAt p i) i fuel).get? k = some (recordAt p (i + k)) := by
  intro fuel
  induction fuel with
  | zero => intro k i hk; omega
  | succ n ih =>
    intro k i hk
    cases k with
    | zero =>
      simp [projLoop, recordAt]
    | succ k' =>
      rw [projLoop]
      show (projLoop p (projStep p i (stateAt p i)).1 (i + 1) n).get? k' = _
      have hst : (projStep p i (stateAt p i)).1 = stateAt p (i + 1) := rfl
      have harith : i + (k' + 1) = i + 1 + k' := by omega
      rw [hst, harith]
      exact ih k' (i + 1) (by omega)

theorem proj_get? (p : FinanceParams) (n i : Nat) (h : i ≤ n) :
    (calculate_yearly_projection p n).get? i = some (recordAt p i) := by
  unfold calculate_yearly_projection
  have h0 : initState p = stateAt p 0 := rfl
  rw [h0]
  have := projLoop_get?_stateAt p (n + 1) i 0 (by omega)
  simpa using this

theorem proj_get?_inv {p : FinanceParams} {n i : Nat} {r : YearlyData}
    (h : (calculate_yearly_projection p n).get? i = some r) :
    i ≤ n ∧ r = recordAt p i := by
  have hlen : (calculate_yearly_projection p n).length = n + 1 :=
    projLoop_length p (n + 1) 0 (initState p)
  have hi : i < n + 1 := by
    obtain ⟨hlt, -⟩ := List.get?_eq_some.mp h
    rwa [hlen] at hlt
  have hin : i ≤ n := by omega
  have := proj_get? p n i hin
  rw [this] at h
  exact ⟨hin, (Option.some.injEq _ _ ▸ h).symm⟩

/-! ### Record-level step facts -/

theorem recordAt_age (p : FinanceParams) (i : Nat) :
    (recordAt p i).age = p.current_age + (i : Int) := rfl

theorem recordAt_housing (p : FinanceParams) (i : Nat) :
    (recordAt p i).housing_fund_account =
      round2 ((stateAt p (i + 1)).housing_fund) := rfl

theorem stateAt_housing_succ (p : FinanceParams) (i : Nat) :
    (stateAt p (i + 1)).housing_fund = nextHousingFund p i (stateAt p i) := rfl

theorem stateAt_savings_succ (p : FinanceParams) (i : Nat) :
    (stateAt p (i + 1)).savings = nextSavings p i (stateAt p i) := rfl

/-- Eligibility gating at the level of one step: below age 60 the emitted
record can never be marked pension-eligible, and an ineligible record
receives a zero annual pension. -/
theorem step_pension_gating (p : FinanceParams) (j : Nat) (st : EngineState) :
    ((projStep p j st).2.age < 60 → (projStep p j st).2.can_receive_pension = false) ∧
    ((projStep p j st).2.can_receive_pension = false →
      (projStep p j st).2.annual_pension_received = 0) := by
  constructor
  · intro hage
    show canReceivePension p j st = false
    have hage' : ageOf p j < 60 := hage
    unfold canReceivePension
    rw [decide_eq_false (not_le.mpr hage'), Bool.false_and]
  · intro hcan
    show round2 (annualPensionBenefit p j st) = 0
    have hcan' : canReceivePension p j st = false := hcan
    unfold annualPensionBenefit
    rw [hcan']
    simp [round2_zero]

/-- Past the retirement age the emitted `monthly_salary` field is zero. -/
theorem step_retired_salary (p : FinanceParams) (j : Nat) (st : EngineState)
    (h : p.retirement_age ≤ (projStep p j st).2.age) :
    (projStep p j st).2.monthly_salary = 0 := by
  show round2 (if isRetired p j = false then nextMonthlySalary p j st else 0) = 0
  have h' : p.retirement_age ≤ ageOf p j := h
  have : isRetired p j = true := by
    unfold isRetired
    exact decide_eq_true h'
  rw [this]
  simp [round2_zero]

/-- Per-record derivation of `total_assets`, up to one cent. -/
theorem step_total_assets (p : FinanceParams) (j : Nat) (st : EngineState) :
    |(projStep p j st).2.total_assets -
      ((projStep p j st).2.savings + (projStep p j st).2.housing_fund_account)|
      ≤ 1 / 100 :=
  abs_round2_add_sub_le (nextSavings p j st) (nextHousingFund p j st)

/-! ### Concrete parameter records used in witnesses and counterexamples -/

/-! ### Claims -/

/-- C1: for the literal parameter set of the end-to-end scenario, the record
at index 0 of the projection (default horizon 60) has year 2025, age 34,
average_salary 12307.00, monthly_salary 10000.00, pension_contribution
21600.00, housing_fund_account 150000.00, pension_years 11, medical_years 11,
can_receive_pension false, annual_pension_received 0.00, living_expense
73842.00, savings 1044558.00, total_assets 1194558.00. -/
theorem end_to_end_record0 :
    (calculate_yearly_projection endToEndParams 60).get? 0 =
      some { year := 2025, age := 34, average_salary := 12307,
             monthly_salary := 10000, contribution_base := 6000,
             pension_contribution := 21600, housing_fund_account := 150000,
             pension_years := 11, medical_years := 11,
             can_receive_pension := false, annual_pension_received := 0,
             living_expense := 73842, savings := 1044558,
             total_assets := 1194558, scenario_name := "",
             is_retirement_year := false, is_pension_start_year := false } := by
  decide

/-- C5: in every emitted record, `total_assets` equals
`savings + housing_fund_account` within a tolerance of 0.01: all three fields
are the two-decimal roundings of the corresponding exact quantities, and
`total_assets` is rounded from the unrounded sum. -/
theorem total_assets_invariant (p : FinanceParams) (n : Nat) :
    ∀ r ∈ calculate_yearly_projection p n,
      |r.total_assets - (r.savings + r.housing_fund_account)| ≤ 1 / 100 :=
  proj_forall (fun j st => step_total_assets p j st) n

/-- Witness for C5, at the end-to-end parameters with horizon 0. -/
theorem total_assets_invariant_witness :
    (recordAt endToEndParams 0) ∈ calculate_yearly_projection endToEndParams 0 ∧
    |(recordAt endToEndParams 0).total_assets -
      ((recordAt endToEndParams 0).savings +
        (recordAt endToEndParams 0).housing_fund_account)| ≤ 1 / 100 :=
  ⟨by decide,
   total_assets_invariant endToEndParams 0 (recordAt endToEndParams 0) (by decide)⟩

/-- C6: in every emitted record, `can_receive_pension` is false whenever the
record's age is below 60, and `annual_pension_received` is 0 whenever
`can_receive_pension` is false. -/
theorem pension_gating (p : FinanceParams) (n : Nat) :
    ∀ r ∈ calculate_yearly_projection p n,
      (r.age < 60 → r.can_receive_pension = false) ∧
      (r.can_receive_pension = false → r.annual_pension_received = 0) :=
  proj_forall (fun j st => step_pension_gating p j st) n

/-- Witness for C6, at the end-to-end parameters with horizon 0 (age 34). -/
theorem pension_gating_witness :
    (recordAt endToEndParams 0) ∈ calculate_yearly_projection endToEndParams 0 ∧
    (recordAt endToEndParams 0).can_receive_pension = false ∧
    (recordAt endToEndParams 0).annual_pension_received = 0 :=
  ⟨by decide,
   (pension_gating endToEndParams 0 (recordAt endToEndParams 0) (by decide)).1
     (by decide),
   (pension_gating endToEndParams 0 (recordAt endToEndParams 0) (by decide)).2
     ((pension_gating endToEndParams 0 (recordAt endToEndParams 0) (by decide)).1
       (by decide))⟩

/-- C10: in every emitted record whose age is at least the retirement age,
the emitted `monthly_salary` field is 0 (the engine keeps carrying the stored
salary internally, but emits 0 once retired). -/
theorem retired_salary_zero (p : FinanceParams) (n : Nat) :
    ∀ r ∈ calculate_yearly_projection p n,
      p.retirement_age ≤ r.age → r.monthly_salary = 0 :=
  proj_forall (fun j st h => step_retired_salary p j st h) n

theorem retired_salary_zero_witness :
    (recordAt earlyRetireParams 0) ∈ calculate_yearly_projection earlyRetireParams 0 ∧
    earlyRetireParams.retirement_age ≤ (recordAt earlyRetireParams 0).age ∧
    (recordAt earlyRetireParams 0).monthly_salary = 0 :=
  ⟨by decide, by decide,
   retired_salary_zero earlyRetireParams 0 (recordAt earlyRetireParams 0)
     (by decide) (by decide)⟩

/-! ### Contribution-year saturation (C2) -/

theorem nextPensionYears_le (p : FinanceParams) (i : Nat) (st : EngineState)
    (h : st.pension_years ≤ 20) : nextPensionYears p i st ≤ 20 := by
  unfold nextPensionYears
  split
  · next hc => omega
  · exact h

theorem nextMedicalYears_le (p : FinanceParams) (i : Nat) (st : EngineState)
    (h : st.medical_years ≤ 25) : nextMedicalYears p i st ≤ 25 := by
  unfold nextMedicalYears
  split
  · next hc => omega
  · exact h

theorem projLoop_pension_le (p : FinanceParams) :
    ∀ (fuel i : Nat) (st : EngineState), st.pension_years ≤ 20 →
      ∀ r ∈ projLoop p st i fuel, r.pension_years ≤ 20 := by
  intro fuel
  induction fuel with
  | zero => intro i st h r hr; simp [projLoop] at hr
  | succ m ih =>
    intro i st h r hr
    rw [projLoop] at hr
    rcases List.mem_cons.mp hr with hEq | hMem
    · rw [hEq]
      exact nextPensionYears_le p i st h
    · exact ih (i + 1) (projStep p i st).1 (nextPensionYears_le p i st h) r hMem

theorem projLoop_medical_le (p : FinanceParams) :
    ∀ (fuel i : Nat) (st : EngineState), st.medical_years ≤ 25 →
      ∀ r ∈ projLoop p st i fuel, r.medical_years ≤ 25 := by
  intro fuel
  induction fuel with
  | zero => intro i st h r hr; simp [projLoop] at hr
  | succ m ih =>
    intro i st h r hr
    rw [projLoop] at hr
    rcases List.mem_cons.mp hr with hEq | hMem
    · rw [hEq]
      exact nextMedicalYears_le p i st h
    · exact ih (i + 1) (projStep p i st).1 (nextMedicalYears_le p i st h) r hMem

/-- C2 counterexample: with 35 years already accrued at initialization, the
very first emitted record carries pension_years = medical_years = 35, so the
claimed bounds (20 / 25) fail. -/
theorem contribution_years_cex :
    ¬ (∀ r ∈ calculate_yearly_projection highAccrualParams 0,
        r.pension_years ≤ 20 ∧ r.medical_years ≤ 25) := by
  decide

/-- C2 (amended): pension_years stays at most 20 and medical_years at most 25
in every emitted record, provided the initially accrued contribution years
`max 0 (start_year - start_work_year)` do not already exceed the respective
threshold (the loop itself never pushes a counter past its threshold; only
initialization can). -/
theorem contribution_years_saturation (p : FinanceParams) (n : Nat) :
    (max 0 (p.start_year - p.start_work_year) ≤ 20 →
      ∀ r ∈ calculate_yearly_projection p n, r.pension_years ≤ 20) ∧
    (max 0 (p.start_year - p.start_work_year) ≤ 25 →
      ∀ r ∈ calculate_yearly_projection p n, r.medical_years ≤ 25) := by
  constructor
  · intro h
    exact projLoop_pension_le p (n + 1) 0 (initState p) h
  · intro h
    exact projLoop_medical_le p (n + 1) 0 (initState p) h

/-- Witness for C2 (amended), at the end-to-end parameters (10 accrued years). -/
theorem contribution_years_saturation_witness :
    max 0 (endToEndParams.start_year - endToEndParams.start_work_year) ≤ 20 ∧
    max 0 (endToEndParams.start_year - endToEndParams.start_work_year) ≤ 25 ∧
    (recordAt endToEndParams 0).pension_years ≤ 20 ∧
    (recordAt endToEndParams 0).medical_years ≤ 25 :=
  ⟨by decide, by decide,
   (contribution_years_saturation endToEndParams 0).1 (by decide)
     (recordAt endToEndParams 0) (by decide),
   (contribution_years_saturation endToEndParams 0).2 (by decide)
     (recordAt endToEndParams 0) (by decide)⟩

/-! ### Housing-fund frame property (C9) -/

theorem step_hf_frozen (p : FinanceParams) (i : Nat) (st : EngineState)
    (hne : ageOf p i ≠ 60) (hnl : ¬ ageOf p i < 60) :
    nextHousingFund p i st = st.housing_fund := by
  have hcond : ¬ (ageOf p i < 60 ∧ 0 < i) := fun hc => hnl hc.1
  have hg : housingFundGrown p i st = st.housing_fund := by
    unfold housingFundGrown
    exact if_neg hcond
  have hcond2 : ¬ (ageOf p i = 60 ∧ 0 < housingFundGrown p i st) :=
    fun hc => hne hc.1
  unfold nextHousingFund
  rw [if_neg hcond2, hg]

theorem projLoop_hf_const (p : FinanceParams) (hage : 60 < p.current_age) :
    ∀ (fuel i : Nat) (st : EngineState),
      ∀ r ∈ projLoop p st i fuel,
        r.housing_fund_account = round2 st.housing_fund := by
  intro fuel
  induction fuel with
  | zero => intro i st r hr; simp [projLoop] at hr
  | succ m ih =>
    intro i st r hr
    have hne : ageOf p i ≠ 60 := by unfold ageOf; omega
    have hnl : ¬ ageOf p i < 60 := by unfold ageOf; omega
    rw [projLoop] at hr
    rcases List.mem_cons.mp hr with hEq | hMem
    · rw [hEq]
      show round2 (nextHousingFund p i st) = round2 st.housing_fund
      rw [step_hf_frozen p i st hne hnl]
    · have hst : (projStep p i st).1.housing_fund = st.housing_fund :=
        step_hf_frozen p i st hne hnl
      have := ih (i + 1) (projStep p i st).1 r hMem
      rwa [hst] at this

/-- C9: if the starting age is above 60, no record in the projection ever has
age 60, the liquidation never fires, the fund never grows, and every emitted
`housing_fund_account` equals the (rounded) initial housing-fund balance. -/
theorem housing_fund_frame (p : FinanceParams) (n : Nat)
    (h : 60 < p.current_age) :
    ∀ r ∈ calculate_yearly_projection p n,
      r.housing_fund_account = round2 p.initial_housing_fund :=
  projLoop_hf_const p h (n + 1) 0 (initState p)

/-- Witness for C9 at starting age 61 with horizon 1. -/
theorem housing_fund_frame_witness :
    60 < elderParams.current_age ∧
    (recordAt elderParams 0) ∈ calculate_yearly_projection elderParams 1 ∧
    (recordAt elderParams 0).housing_fund_account =
      round2 elderParams.initial_housing_fund :=
  ⟨by decide, by decide,
   housing_fund_frame elderParams 1 (by decide) (recordAt elderParams 0)
     (by decide)⟩

/-! ### Reference-wage monotonicity (C4) -/

theorem nextAvg_nonneg (p : FinanceParams) (i : Nat) (st : EngineState)
    (hf : 0 ≤ 1 + p.salary_growth_rate / 100) (h0 : 0 ≤ st.average_salary) :
    0 ≤ nextAverageSalary p i st := by
  unfold nextAverageSalary
  split
  · exact mul_nonneg h0 hf
  · exact h0

theorem nextAvg_le_next (p : FinanceParams) (i : Nat) (st : EngineState)
    (hg : 0 < p.salary_growth_rate) (h0 : 0 ≤ st.average_salary) :
    nextAverageSalary p i st ≤ nextAverageSalary p (i + 1) (projStep p i st).1 := by
  have h1 : (projStep p i st).1.average_salary = nextAverageSalary p i st := rfl
  have hnn : 0 ≤ nextAverageSalary p i st :=
    nextAvg_nonneg p i st (by linarith) h0
  show nextAverageSalary p i st ≤
    (if 0 < i + 1 then
      (projStep p i st).1.average_salary * (1 + p.salary_growth_rate / 100)
    else (projStep p i st).1.average_salary)
  rw [if_pos (Nat.succ_pos i), h1]
  exact le_mul_of_one_le_right hnn (by linarith)

theorem projLoop_avg_chain (p : FinanceParams) (hg : 0 < p.salary_growth_rate) :
    ∀ (fuel i : Nat) (st : EngineState), 0 ≤ st.average_salary →
      List.Chain' (fun a b => a.average_salary ≤ b.average_salary)
        (projLoop p st i fuel) := by
  intro fuel
  induction fuel with
  | zero =>
    intro i st h0
    rw [projLoop]
    exact List.chain'_nil
  | succ m ih =>
    intro i st h0
    have h0' : 0 ≤ (projStep p i st).1.average_salary :=
      nextAvg_nonneg p i st (by linarith) h0
    rw [projLoop, List.chain'_cons']
    refine ⟨?_, ih (i + 1) (projStep p i st).1 h0'⟩
    intro y hy
    cases m with
    | zero => rw [projLoop] at hy; simp at hy
    | succ m' =>
      rw [projLoop] at hy
      simp only [List.head?_cons, Option.mem_some_iff] at hy
      rw [← hy]
      exact round2_mono (nextAvg_le_next p i st hg h0)

/-- C4 (amended): with a positive salary growth rate and a non-negative
starting reference wage, the emitted `average_salary` field is nondecreasing
from each record to the next.  (Strict increase of the emitted field fails:
the two-decimal rounding can collapse consecutive distinct values, see the
counterexample.) -/
theorem monotonic_reference_wage (p : FinanceParams) (n : Nat)
    (hg : 0 < p.salary_growth_rate) (ha : 0 ≤ p.local_average_salary) :
    List.Chain' (fun a b => a.average_salary ≤ b.average_salary)
      (calculate_yearly_projection p n) :=
  projLoop_avg_chain p hg (n + 1) 0 (initState p) ha

/-- Witness for C4 (amended) at the end-to-end parameters with horizon 1. -/
theorem monotonic_reference_wage_witness :
    0 < endToEndParams.salary_growth_rate ∧
    0 ≤ endToEndParams.local_average_salary ∧
    List.Chain' (fun a b => a.average_salary ≤ b.average_salary)
      (calculate_yearly_projection endToEndParams 1) :=
  ⟨by decide, by decide,
   monotonic_reference_wage endToEndParams 1 (by decide) (by decide)⟩

/-- C4 counterexample: the growth rate is positive, yet the emitted
`average_salary` sequence of the default-horizon projection is not strictly
increasing (records 0 and 1 both show 0.00). -/
theorem monotonic_reference_wage_cex :
    0 < tinyWageParams.salary_growth_rate ∧
    ¬ List.Chain' (fun a b => a.average_salary < b.average_salary)
        (calculate_yearly_projection tinyWageParams 60) := by
  constructor
  · decide
  · intro hchain
    have hlen : (calculate_yearly_projection tinyWageParams 60).length = 61 :=
      projLoop_length tinyWageParams 61 0 (initState tinyWageParams)
    have h01 :
        (recordAt tinyWageParams 0).average_salary <
          (recordAt tinyWageParams 1).average_salary := by
      have h0 := proj_get? tinyWageParams 60 0 (by omega)
      have h1 := proj_get? tinyWageParams 60 1 (by omega)
      have hkey := List.chain'_iff_get.mp hchain 0 (by rw [hlen]; omega)
      have hg0 : (calculate_yearly_projection tinyWageParams 60).get
          ⟨0, by rw [hlen]; omega⟩ = recordAt tinyWageParams 0 := by
        apply Option.some.inj
        rw [← List.get?_eq_get, h0]
      have hg1 : (calculate_yearly_projection tinyWageParams 60).get
          ⟨0 + 1, by rw [hlen]; omega⟩ = recordAt tinyWageParams 1 := by
        apply Option.some.inj
        rw [← List.get?_eq_get, h1]
      rw [hg0, hg1] at hkey
      exact hkey
    have hv0 : (recordAt tinyWageParams 0).average_salary = 0 := by decide
    have hv1 : (recordAt tinyWageParams 1).average_salary = 0 := by decide
    rw [hv0, hv1] at h01
    exact absurd h01 (by norm_num)

/-! ### Scenario independence (C7) -/

/-- C7: whenever a scenario mapping binds a name to a parameter record, the
batch runner's result for that name is exactly the direct projection of that
record with the default horizon, whatever the other entries are. -/
theorem scenario_independence (scenarios : List (String × FinanceParams))
    (name : String) (pa : FinanceParams)
    (h : scenarios.lookup name = some pa) :
    (calculate_scenarios scenarios).lookup name =
      some (calculate_yearly_projection pa 60) := by
  induction scenarios with
  | nil => simp [List.lookup] at h
  | cons hd tl ih =>
    obtain ⟨k, v⟩ := hd
    by_cases hk : (name == k) = true
    · have hv : v = pa := by
        simp only [List.lookup, hk] at h
        exact Option.some.inj h
      subst hv
      simp [calculate_scenarios, List.lookup, hk]
    · rw [Bool.not_eq_true] at hk
      have h' : tl.lookup name = some pa := by
        simpa only [List.lookup, hk] using h
      have := ih h'
      simpa [calculate_scenarios, List.lookup, hk] using this

/-- Witness for C7 on a concrete two-entry mapping. -/
theorem scenario_independence_witness :
    scenarioPair.lookup "A" = some endToEndParams ∧
    (calculate_scenarios scenarioPair).lookup "A" =
      some (calculate_yearly_projection endToEndParams 60) :=
  ⟨by decide, scenario_independence scenarioPair "A" endToEndParams (by decide)⟩

/-! ### initial_personal_pension is never read (C8) -/

/-- C8: changing only the `initial_personal_pension` field of a parameter
record leaves the entire projection output unchanged, for every horizon: the
engine carries the field but never reads it. -/
theorem personal_pension_unused (p : FinanceParams) (x : ℚ) (n : Nat) :
    calculate_yearly_projection { p with initial_personal_pension := x } n =
      calculate_yearly_projection p n := by
  obtain ⟨f1, f2, f3, f4, f5, f6, f7, f8, f9, f10, f11, f12, f13, f14, f15, f16, f17⟩ := p
  have hstep : ∀ (i : Nat) (st : EngineState),
      projStep { start_year := f1, start_work_year := f2, current_age := f3,
                 retirement_age := f4, official_retirement_age := f5,
                 initial_monthly_salary := f6, local_average_salary := f7,
                 salary_growth_rate := f8, pension_replacement_ratio := f9,
                 contribution_ratio := f10, living_expense_ratio := f11,
                 deposit_rate := f12, inflation_rate := f13,
                 initial_savings := f14, initial_housing_fund := f15,
                 housing_fund_rate := f16, initial_personal_pension := x } i st =
      projStep { start_year := f1, start_work_year := f2, current_age := f3,
                 retirement_age := f4, official_retirement_age := f5,
                 initial_monthly_salary := f6, local_average_salary := f7,
                 salary_growth_rate := f8, pension_replacement_ratio := f9,
                 contribution_ratio := f10, living_expense_ratio := f11,
                 deposit_rate := f12, inflation_rate := f13,
                 initial_savings := f14, initial_housing_fund := f15,
                 housing_fund_rate := f16, initial_personal_pension := f17 } i st :=
    fun i st => rfl
  have hloop : ∀ (fuel i : Nat) (st : EngineState),
      projLoop { start_year := f1, start_work_year := f2, current_age := f3,
                 retirement_age := f4, official_retirement_age := f5,
                 initial_monthly_salary := f6, local_average_salary := f7,
                 salary_growth_rate := f8, pension_replacement_ratio := f9,
                 contribution_ratio := f10, living_expense_ratio := f11,
                 deposit_rate := f12, inflation_rate := f13,
                 initial_savings := f14, initial_housing_fund := f15,
                 housing_fund_rate := f16, initial_personal_pension := x } st i fuel =
      projLoop { start_year := f1, start_work_year := f2, current_age := f3,
                 retirement_age := f4, official_retirement_age := f5,
                 initial_monthly_salary := f6, local_average_salary := f7,
                 salary_growth_rate := f8, pension_replacement_ratio := f9,
                 contribution_ratio := f10, living_expense_ratio := f11,
                 deposit_rate := f12, inflation_rate := f13,
                 initial_savings := f14, initial_housing_fund := f15,
                 housing_fund_rate := f16, initial_personal_pension := f17 } st i fuel := by
    intro fuel
    induction fuel with
    | zero => intro i st; rfl
    | succ m ih =>
      intro i st
      rw [projLoop, projLoop, hstep]
      rw [ih]
  unfold calculate_yearly_projection
  rw [hloop]
  rfl

/-! ### Housing-fund liquidation at age 60 (C3) -/

theorem step_liquidation (p : FinanceParams) (i : Nat) (st : EngineState)
    (hage : ageOf p i = 60) (hpos : 0 < st.housing_fund) :
    nextHousingFund p i st = 0 ∧
    nextSavings p i st =
      (st.savings + st.housing_fund) * (1 + p.deposit_rate / 100)
        + annualNetFlow p i st := by
  have hnl : ¬ (ageOf p i < 60 ∧ 0 < i) := by
    intro hc
    rw [hage] at hc
    exact absurd hc.1 (by norm_num)
  have hgrow : housingFundGrown p i st = st.housing_fund := by
    unfold housingFundGrown
    exact if_neg hnl
  have hcond : ageOf p i = 60 ∧ 0 < housingFundGrown p i st :=
    ⟨hage, by rw [hgrow]; exact hpos⟩
  constructor
  · unfold nextHousingFund
    exact if_pos hcond
  · unfold nextSavings savingsAfterFund
    rw [if_pos hcond, hgrow]

theorem stateAt_hf_zero (p : FinanceParams) (i : Nat)
    (hage : p.current_age + (i : Int) = 60)
    (hz : (stateAt p (i + 1)).housing_fund = 0) :
    ∀ j, i ≤ j → (stateAt p (j + 1)).housing_fund = 0 := by
  intro j
  induction j with
  | zero =>
    intro hj
    have hi0 : i = 0 := Nat.le_zero.mp hj
    subst hi0
    exact hz
  | succ m ih =>
    intro hj
    by_cases him : i ≤ m
    · have hm := ih him
      have hgt : ¬ ageOf p (m + 1) < 60 := by
        unfold ageOf
        omega
      have hne : ageOf p (m + 1) ≠ 60 := by
        unfold ageOf
        omega
      rw [stateAt_housing_succ,
        step_hf_frozen p (m + 1) (stateAt p (m + 1)) hne hgt]
      exact hm
    · have hieq : i = m + 1 := by omega
      subst hieq
      exact hz

/-- C3: if some record of the projection has age 60 and the immediately
preceding record shows a positive housing-fund balance, then the age-60
record's `housing_fund_account` is 0, every later record's
`housing_fund_account` stays 0, and in that single year the entire prior
internal housing-fund balance is added to savings (the transferred balance
then also earns that year's deposit interest, on top of the normal net
flow). -/
theorem housing_fund_liquidation (p : FinanceParams) (n i : Nat)
    (r₀ r₁ : YearlyData)
    (h₀ : (calculate_yearly_projection p n).get? i = some r₀)
    (h₁ : (calculate_yearly_projection p n).get? (i + 1) = some r₁)
    (hage : r₁.age = 60)
    (hpos : 0 < r₀.housing_fund_account) :
    r₁.housing_fund_account = 0 ∧
    (∀ (j : Nat) (r' : YearlyData), i + 1 ≤ j →
      (calculate_yearly_projection p n).get? j = some r' →
      r'.housing_fund_account = 0) ∧
    (stateAt p (i + 2)).savings =
      ((stateAt p (i + 1)).savings + (stateAt p (i + 1)).housing_fund)
        * (1 + p.deposit_rate / 100)
        + annualNetFlow p (i + 1) (stateAt p (i + 1)) := by
  obtain ⟨hin, hr₀⟩ := proj_get?_inv h₀
  obtain ⟨hin1, hr₁⟩ := proj_get?_inv h₁
  subst hr₀
  subst hr₁
  have hage' : ageOf p (i + 1) = 60 := hage
  have hpos' : 0 < (stateAt p (i + 1)).housing_fund := by
    apply pos_of_round2_pos
    exact hpos
  obtain ⟨hhf0, hsav⟩ :=
    step_liquidation p (i + 1) (stateAt p (i + 1)) hage' hpos'
  have hz : (stateAt p (i + 2)).housing_fund = 0 := by
    rw [stateAt_housing_succ]
    exact hhf0
  refine ⟨?_, ?_, ?_⟩
  · rw [recordAt_housing, hz, round2_zero]
  · intro j r' hij hj
    obtain ⟨hjn, hrj⟩ := proj_get?_inv hj
    subst hrj
    rw [recordAt_housing]
    have hagecast : p.current_age + ((i + 1 : Nat) : Int) = 60 := hage'
    have hjz := stateAt_hf_zero p (i + 1) hagecast hz j hij
    rw [hjz, round2_zero]
  · rw [stateAt_savings_succ]
    exact hsav

/-- Witness for C3 on the concrete liquidation scenario. -/
theorem housing_fund_liquidation_witness :
    (calculate_yearly_projection liquidationParams 2).get? 0 =
      some (recordAt liquidationParams 0) ∧
    (calculate_yearly_projection liquidationParams 2).get? 1 =
      some (recordAt liquidationParams 1) ∧
    (recordAt liquidationParams 1).age = 60 ∧
    0 < (recordAt liquidationParams 0).housing_fund_account ∧
    (recordAt liquidationParams 1).housing_fund_account = 0 ∧
    (stateAt liquidationParams 2).savings =
      ((stateAt liquidationParams 1).savings +
        (stateAt liquidationParams 1).housing_fund)
        * (1 + liquidationParams.deposit_rate / 100)
        + annualNetFlow liquidationParams 1 (stateAt liquidationParams 1) :=
  ⟨by decide, by decide, by decide, by decide,
   (housing_fund_liquidation liquidationParams 2 0
     (recordAt liquidationParams 0) (recordAt liquidationParams 1)
     (by decide) (by decide) (by decide) (by decide)).1,
   (housing_fund_liquidation liquidationParams 2 0
     (recordAt liquidationParams 0) (recordAt liquidationParams 1)
     (by decide) (by decide) (by decide) (by decide)).2.2⟩
